import Mathlib

/-
Verification of the `debounced-pin` debouncing state machine (src/src/lib.rs).

Shallow embedding notes:
* The Rust struct `DebouncedInputPin<T, A>` owns a raw pin `pin : T` and a
  `PhantomData<A>` polarity tag.  The raw pin is an external capability whose
  only role in the core is the fallible boolean read performed at the top of
  `update`; we therefore model the pin state as the three mutable fields
  (`counter`, `max_counts`, `state`) and pass the result of the raw read to
  `update` explicitly as an `Except ε Bool` value, where `true` is the
  electrical high level (`pin.is_high()` returns the level and `pin.is_low()`
  its complement, as the `InputPin` contract requires).
* The polarity is a compile-time tag selecting one of two separate `update`
  implementations in the source; we mirror this with two separate Lean
  functions, `updateActiveHigh` and `updateActiveLow` (and their
  successful-read bodies `stepActiveHigh` / `stepActiveLow`).
* `counter` and `max_counts` are `i8` in the source.  They are embedded as
  `Int`: the only arithmetic performed is `counter = 0` and the increment
  `counter += 1`, and the increment is guarded by `counter < max_counts`,
  so for any values representable in `i8` (`max_counts ≤ 127`) the result
  stays within `i8` range and no wrap-around can occur; `Int` arithmetic
  therefore coincides with the `i8` arithmetic of the source on its whole
  domain.
-/

namespace DebouncedPin

/-- The debounce state returned by `update()` (enum `DebounceState`). -/
inductive DebounceState where
  /-- The pin state is active, but not debounced. -/
  | Debouncing
  /-- The pin state is not active, the counter is reset. -/
  | Reset
  /-- The pin state is high and is debounced. -/
  | Active
deriving DecidableEq, Repr

/-- The polarity tag: the unit structs `ActiveHigh` and `ActiveLow` of the
source, gathered in one inductive so that the generic constructor `new`
can take either. -/
inductive Activeness where
  | ActiveHigh
  | ActiveLow
deriving DecidableEq, Repr

/-- The mutable fields of `DebouncedInputPin<T, A>`: the run-length counter,
the configurable threshold `max_counts`, and the published debounced state.
The wrapped raw pin is external (its read result is passed to `update`). -/
structure DebouncedInputPin where
  /-- The counter (`i8` in the source, see the header note). -/
  counter : Int
  /-- Maximum number of times the pin has to be polled and be continuously
  active to change its debounce state (`i8` in the source). -/
  max_counts : Int
  /-- The debounced pin state. -/
  state : Bool
deriving DecidableEq, Repr

namespace DebouncedInputPin

/-- `DebouncedInputPin::new(pin, _activeness)`: the generic constructor.
It ignores the polarity value and always produces `counter = 0`,
`max_counts = 10`, `state = false`. -/
def new (_activeness : Activeness) : DebouncedInputPin :=
  { counter := 0, max_counts := 10, state := false }

/-- `DebouncedInputPin::<T, ActiveHigh>::active_high(pin)`. -/
def active_high : DebouncedInputPin :=
  { counter := 0, max_counts := 10, state := false }

/-- `DebouncedInputPin::<T, ActiveLow>::active_low(pin)`. -/
def active_low : DebouncedInputPin :=
  { counter := 0, max_counts := 10, state := true }

/-- `DebouncedInputPin::set_poll_amounts(&mut self, max_counts)`. -/
def set_poll_amounts (p : DebouncedInputPin) (max_counts : Int) : DebouncedInputPin :=
  { p with max_counts := max_counts }

/-- `InputPin::is_high for DebouncedInputPin<T, A>`: `Ok(self.state)`.
`ε` is the opaque associated error type `T::Error`. -/
def is_high (ε : Type) (p : DebouncedInputPin) : Except ε Bool :=
  Except.ok p.state

/-- `InputPin::is_low for DebouncedInputPin<T, A>`: `Ok(!self.state)`. -/
def is_low (ε : Type) (p : DebouncedInputPin) : Except ε Bool :=
  Except.ok (!p.state)

end DebouncedInputPin

/-- Body of `Debounce::update for DebouncedInputPin<T, ActiveHigh>` after a
successful raw read.  `level` is the electrical level of the wrapped pin, so
the source's `self.pin.is_low()?` test is `!level`. -/
def stepActiveHigh (p : DebouncedInputPin) (level : Bool) :
    DebounceState × DebouncedInputPin :=
  if !level then
    (DebounceState.Reset, { p with counter := 0, state := false })
  else if p.counter < p.max_counts then
    (DebounceState.Debouncing, { p with counter := p.counter + 1 })
  else
    (DebounceState.Active, { p with state := true })

/-- Body of `Debounce::update for DebouncedInputPin<T, ActiveLow>` after a
successful raw read.  The source's `self.pin.is_high()?` test is `level`. -/
def stepActiveLow (p : DebouncedInputPin) (level : Bool) :
    DebounceState × DebouncedInputPin :=
  if level then
    (DebounceState.Reset, { p with counter := 0, state := true })
  else if p.counter < p.max_counts then
    (DebounceState.Debouncing, { p with counter := p.counter + 1 })
  else
    (DebounceState.Active, { p with state := false })

/-- `Debounce::update for DebouncedInputPin<T, ActiveHigh>`.  The raw read
result (`Except ε Bool`, carrying the electrical level on success) is the
first thing evaluated, exactly as `self.pin.is_low()?` is in the source:
on `Err` the error propagates and the state is returned unchanged
(`&mut self` untouched, the `?` fires before any assignment). -/
def updateActiveHigh (ε : Type) (p : DebouncedInputPin) (raw : Except ε Bool) :
    Except ε DebounceState × DebouncedInputPin :=
  match raw with
  | Except.error e => (Except.error e, p)
  | Except.ok level =>
      (Except.ok (stepActiveHigh p level).1, (stepActiveHigh p level).2)

/-- `Debounce::update for DebouncedInputPin<T, ActiveLow>`. -/
def updateActiveLow (ε : Type) (p : DebouncedInputPin) (raw : Except ε Bool) :
    Except ε DebounceState × DebouncedInputPin :=
  match raw with
  | Except.error e => (Except.error e, p)
  | Except.ok level =>
      (Except.ok (stepActiveLow p level).1, (stepActiveLow p level).2)

/-- Trace of an ActiveHigh pin over a list of successful raw reads: for each
tick, the `DebounceState` returned by `update` and the pin state right after
that call. -/
def traceActiveHigh (p : DebouncedInputPin) : List Bool → List (DebounceState × DebouncedInputPin)
  | [] => []
  | level :: rest =>
      stepActiveHigh p level :: traceActiveHigh (stepActiveHigh p level).2 rest

/-- Trace of an ActiveLow pin over a list of successful raw reads. -/
def traceActiveLow (p : DebouncedInputPin) : List Bool → List (DebounceState × DebouncedInputPin)
  | [] => []
  | level :: rest =>
      stepActiveLow p level :: traceActiveLow (stepActiveLow p level).2 rest

/-- Mirroring, as the spec words it: ActiveLow is the mirror image of
ActiveHigh, the published state being negated (active/rest swapped). -/
def mirror (p : DebouncedInputPin) : DebouncedInputPin :=
  { p with state := !p.state }

/-- Claim C3: for either polarity and for every prior value of the counter
and the published state, a successful raw read at the not-active level
(electrically low for ActiveHigh, high for ActiveLow) makes `update` set
`counter` to 0 and `state` to the rest value and return `Reset`. -/
theorem update_not_active_resets (ε : Type) (p : DebouncedInputPin) :
    updateActiveHigh ε p (Except.ok false) =
      (Except.ok DebounceState.Reset, { p with counter := 0, state := false }) ∧
    updateActiveLow ε p (Except.ok true) =
      (Except.ok DebounceState.Reset, { p with counter := 0, state := true }) := by
  constructor <;> rfl

/-- Claim C4: for either polarity, a failed raw read makes `update` return
the error unchanged with the whole pin state (counter, threshold and
published state) exactly as before the call. -/
theorem update_error_propagates (ε : Type) (e : ε) (p : DebouncedInputPin) :
    updateActiveHigh ε p (Except.error e) = (Except.error e, p) ∧
    updateActiveLow ε p (Except.error e) = (Except.error e, p) := by
  constructor <;> rfl

/-- Claim C7: for every pin state, `is_high` returns `Ok(state)` and
`is_low` returns `Ok(!state)`; neither can return an error, the raw pin is
never read, and the two results are logical complements. -/
theorem is_high_is_low_pure (ε : Type) (p : DebouncedInputPin) :
    DebouncedInputPin.is_high ε p = Except.ok p.state ∧
    DebouncedInputPin.is_low ε p = Except.ok (!p.state) ∧
    (∃ b : Bool, DebouncedInputPin.is_high ε p = Except.ok b ∧
      DebouncedInputPin.is_low ε p = Except.ok (!b)) := by
  exact ⟨rfl, rfl, p.state, rfl, rfl⟩

/-- Claim C2, counterexample: the generic constructor `new` applied to the
`ActiveLow` tag does not set the published state to ActiveLow's rest value
`true` — it hardcodes `false`. -/
theorem new_active_low_not_rest :
    ¬ (DebouncedInputPin.new Activeness.ActiveLow).state = true := by
  decide

/-- Claim C2 as amended: every constructor produces `counter = 0`; the
polarity-specific constructors set the published state to the polarity's
rest value (`false` for `active_high`, `true` for `active_low`), while the
generic `new` sets it to `false` regardless of the polarity tag. -/
theorem constructors_initial_state (a : Activeness) :
    DebouncedInputPin.new a = { counter := 0, max_counts := 10, state := false } ∧
    DebouncedInputPin.active_high = { counter := 0, max_counts := 10, state := false } ∧
    DebouncedInputPin.active_low = { counter := 0, max_counts := 10, state := true } := by
  exact ⟨rfl, rfl, rfl⟩

/-- Claim C9: the two update implementations are exact mirror images: on any
state and successful raw level `r`, the ActiveLow update returns the same
`DebounceState` as the ActiveHigh update run on the mirrored state (published
state negated) with raw level `!r`, and its resulting state is the mirror of
the ActiveHigh result (same counter and threshold, published state negated). -/
theorem active_low_mirrors_active_high (p : DebouncedInputPin) (level : Bool) :
    (stepActiveLow p level).1 = (stepActiveHigh (mirror p) (!level)).1 ∧
    (stepActiveLow p level).2 = mirror (stepActiveHigh (mirror p) (!level)).2 := by
  cases p with
  | mk c m s =>
      cases level
      · by_cases h : c < m <;> simp [stepActiveLow, stepActiveHigh, mirror, h]
      · simp [stepActiveLow, stepActiveHigh, mirror]

/-- A run of `n` consecutive active reads starting at counter `c` with
`c + n = max_counts`, followed by one further active read, seen through the
ActiveHigh trace: `n` ticks return `Debouncing` with the published state
still at rest, and the final tick returns `Active` with the published state
active. -/
theorem traceActiveHigh_saturating_run (n : ℕ) :
    ∀ c T : Int, c + n = T →
    (traceActiveHigh { counter := c, max_counts := T, state := false }
        (List.replicate n true ++ [true])).map (fun x => (x.1, x.2.state)) =
      List.replicate n (DebounceState.Debouncing, false) ++
        [(DebounceState.Active, true)] := by
  induction n with
  | zero =>
      intro c T h
      have hc : ¬ c < T := by push_cast at h; omega
      simp [traceActiveHigh, stepActiveHigh, hc]
  | succ n ih =>
      intro c T h
      have hc : c < T := by push_cast at h; omega
      have h2 : c + 1 + (n : Int) = T := by push_cast at h ⊢; omega
      rw [List.replicate_succ, List.cons_append]
      simp [traceActiveHigh, stepActiveHigh, hc, List.replicate_succ, ih (c + 1) T h2]

/-- ActiveLow version of `traceActiveHigh_saturating_run`. -/
theorem traceActiveLow_saturating_run (n : ℕ) :
    ∀ c T : Int, c + n = T →
    (traceActiveLow { counter := c, max_counts := T, state := true }
        (List.replicate n false ++ [false])).map (fun x => (x.1, x.2.state)) =
      List.replicate n (DebounceState.Debouncing, true) ++
        [(DebounceState.Active, false)] := by
  induction n with
  | zero =>
      intro c T h
      have hc : ¬ c < T := by push_cast at h; omega
      simp [traceActiveLow, stepActiveLow, hc]
  | succ n ih =>
      intro c T h
      have hc : c < T := by push_cast at h; omega
      have h2 : c + 1 + (n : Int) = T := by push_cast at h ⊢; omega
      rw [List.replicate_succ, List.cons_append]
      simp [traceActiveLow, stepActiveLow, hc, List.replicate_succ, ih (c + 1) T h2]

/-- Claim C1: for either polarity, starting at `counter = 0` and the rest
state with threshold `n`, a run of `n + 1` consecutive active-level reads
makes `update` return `Debouncing` exactly `n` times and then `Active` on
the `(n+1)`-th call, and the published debounced state (what `is_high` /
`is_low` read) stays at the rest value throughout the `Debouncing` calls and
becomes active exactly after the `Active`-returning call. -/
theorem active_after_threshold_plus_one_ticks (n : ℕ) :
    (traceActiveHigh { counter := 0, max_counts := (n : Int), state := false }
        (List.replicate n true ++ [true])).map (fun x => (x.1, x.2.state)) =
      List.replicate n (DebounceState.Debouncing, false) ++
        [(DebounceState.Active, true)] ∧
    (traceActiveLow { counter := 0, max_counts := (n : Int), state := true }
        (List.replicate n false ++ [false])).map (fun x => (x.1, x.2.state)) =
      List.replicate n (DebounceState.Debouncing, true) ++
        [(DebounceState.Active, false)] :=
  ⟨traceActiveHigh_saturating_run n 0 n (by omega),
   traceActiveLow_saturating_run n 0 n (by omega)⟩

/-- Any property preserved by `stepActiveHigh` holds at every state of an
ActiveHigh trace started from a state satisfying it. -/
theorem traceActiveHigh_invariant (P : DebouncedInputPin → Prop)
    (hstep : ∀ p level, P p → P (stepActiveHigh p level).2) :
    ∀ (ls : List Bool) (p : DebouncedInputPin), P p →
      ∀ pr ∈ traceActiveHigh p ls, P pr.2 := by
  intro ls
  induction ls with
  | nil =>
      intro p hp pr hpr
      simp [traceActiveHigh] at hpr
  | cons l ls ih =>
      intro p hp pr hpr
      simp only [traceActiveHigh, List.mem_cons] at hpr
      rcases hpr with h | h
      · exact h ▸ hstep p l hp
      · exact ih (stepActiveHigh p l).2 (hstep p l hp) pr h

/-- ActiveLow version of `traceActiveHigh_invariant`. -/
theorem traceActiveLow_invariant (P : DebouncedInputPin → Prop)
    (hstep : ∀ p level, P p → P (stepActiveLow p level).2) :
    ∀ (ls : List Bool) (p : DebouncedInputPin), P p →
      ∀ pr ∈ traceActiveLow p ls, P pr.2 := by
  intro ls
  induction ls with
  | nil =>
      intro p hp pr hpr
      simp [traceActiveLow] at hpr
  | cons l ls ih =>
      intro p hp pr hpr
      simp only [traceActiveLow, List.mem_cons] at hpr
      rcases hpr with h | h
      · exact h ▸ hstep p l hp
      · exact ih (stepActiveLow p l).2 (hstep p l hp) pr h

/-- One ActiveHigh update keeps the counter within `[0, max_counts]`. -/
theorem stepActiveHigh_preserves_bounds (p : DebouncedInputPin) (level : Bool)
    (h : 0 ≤ p.counter ∧ p.counter ≤ p.max_counts) :
    0 ≤ (stepActiveHigh p level).2.counter ∧
      (stepActiveHigh p level).2.counter ≤ (stepActiveHigh p level).2.max_counts := by
  obtain ⟨h1, h2⟩ := h
  unfold stepActiveHigh
  cases level
  · simp
    omega
  · by_cases hc : p.counter < p.max_counts <;> simp [hc] <;> omega

/-- One ActiveLow update keeps the counter within `[0, max_counts]`. -/
theorem stepActiveLow_preserves_bounds (p : DebouncedInputPin) (level : Bool)
    (h : 0 ≤ p.counter ∧ p.counter ≤ p.max_counts) :
    0 ≤ (stepActiveLow p level).2.counter ∧
      (stepActiveLow p level).2.counter ≤ (stepActiveLow p level).2.max_counts := by
  obtain ⟨h1, h2⟩ := h
  unfold stepActiveLow
  cases level
  · by_cases hc : p.counter < p.max_counts <;> simp [hc] <;> omega
  · simp
    omega

/-- Claim C5: on a freshly constructed pin of either polarity driven only by
successful updates, `0 ≤ run_count ≤ threshold` holds after every `update`
call (the threshold staying at its construction value throughout). -/
theorem run_count_bounded (ls ms : List Bool)
    (pr qs : DebounceState × DebouncedInputPin)
    (hH : pr ∈ traceActiveHigh DebouncedInputPin.active_high ls)
    (hL : qs ∈ traceActiveLow DebouncedInputPin.active_low ms) :
    (0 ≤ pr.2.counter ∧ pr.2.counter ≤ pr.2.max_counts) ∧
    (0 ≤ qs.2.counter ∧ qs.2.counter ≤ qs.2.max_counts) :=
  ⟨traceActiveHigh_invariant (fun p => 0 ≤ p.counter ∧ p.counter ≤ p.max_counts)
      stepActiveHigh_preserves_bounds ls DebouncedInputPin.active_high (by decide) pr hH,
   traceActiveLow_invariant (fun p => 0 ≤ p.counter ∧ p.counter ≤ p.max_counts)
      stepActiveLow_preserves_bounds ms DebouncedInputPin.active_low (by decide) qs hL⟩

/-- Witness for claim C5: one active tick on each freshly constructed pin
lands on counter 1 with threshold 10. -/
theorem run_count_bounded_witness :
    ((0 : Int) ≤ 1 ∧ (1 : Int) ≤ 10) ∧ ((0 : Int) ≤ 1 ∧ (1 : Int) ≤ 10) :=
  run_count_bounded [true] [false]
    (DebounceState.Debouncing, { counter := 1, max_counts := 10, state := false })
    (DebounceState.Debouncing, { counter := 1, max_counts := 10, state := true })
    (by decide) (by decide)

/-- Reachability invariant of an ActiveHigh pin: the counter is within
bounds and the published state can only be active with a saturated counter. -/
def activeInvariantHigh (p : DebouncedInputPin) : Prop :=
  0 ≤ p.counter ∧ p.counter ≤ p.max_counts ∧
    (p.state = true → p.counter = p.max_counts)

/-- Reachability invariant of an ActiveLow pin (active published value is
`false`). -/
def activeInvariantLow (p : DebouncedInputPin) : Prop :=
  0 ≤ p.counter ∧ p.counter ≤ p.max_counts ∧
    (p.state = false → p.counter = p.max_counts)

/-- One ActiveHigh update preserves `activeInvariantHigh`. -/
theorem stepActiveHigh_preserves_saturation (p : DebouncedInputPin) (level : Bool)
    (h : activeInvariantHigh p) : activeInvariantHigh (stepActiveHigh p level).2 := by
  obtain ⟨h1, h2, h3⟩ := h
  unfold activeInvariantHigh stepActiveHigh
  cases level
  · simp
    omega
  · by_cases hc : p.counter < p.max_counts
    · simp only [Bool.not_true, Bool.false_eq_true, if_false, hc, if_true]
      refine ⟨by omega, by omega, ?_⟩
      intro hs
      exact absurd (h3 hs) (by omega)
    · simp [hc]
      omega

/-- One ActiveLow update preserves `activeInvariantLow`. -/
theorem stepActiveLow_preserves_saturation (p : DebouncedInputPin) (level : Bool)
    (h : activeInvariantLow p) : activeInvariantLow (stepActiveLow p level).2 := by
  obtain ⟨h1, h2, h3⟩ := h
  unfold activeInvariantLow stepActiveLow
  cases level
  · by_cases hc : p.counter < p.max_counts
    · simp only [Bool.false_eq_true, if_false, hc, if_true]
      refine ⟨by omega, by omega, ?_⟩
      intro hs
      exact absurd (h3 hs) (by omega)
    · simp [hc]
      omega
  · simp
    omega

/-- Claim C10: on pins built by the polarity-specific constructors (default
threshold 10) and driven only by successful updates, whenever the published
state equals the active value of the polarity (`true` for ActiveHigh,
`false` for ActiveLow), the counter equals the threshold. -/
theorem active_state_implies_saturated (ls ms : List Bool)
    (pr qs : DebounceState × DebouncedInputPin)
    (hH : pr ∈ traceActiveHigh DebouncedInputPin.active_high ls)
    (hHs : pr.2.state = true)
    (hL : qs ∈ traceActiveLow DebouncedInputPin.active_low ms)
    (hLs : qs.2.state = false) :
    pr.2.counter = pr.2.max_counts ∧ qs.2.counter = qs.2.max_counts :=
  ⟨(traceActiveHigh_invariant activeInvariantHigh stepActiveHigh_preserves_saturation
      ls DebouncedInputPin.active_high (by simp [activeInvariantHigh, DebouncedInputPin.active_high])
      pr hH).2.2 hHs,
   (traceActiveLow_invariant activeInvariantLow stepActiveLow_preserves_saturation
      ms DebouncedInputPin.active_low (by simp [activeInvariantLow, DebouncedInputPin.active_low])
      qs hL).2.2 hLs⟩

/-- Witness for claim C10: after 11 consecutive active ticks on each fresh
pin, the published state is active and the counter equals the threshold 10. -/
theorem active_state_implies_saturated_witness :
    (10 : Int) = 10 ∧ (10 : Int) = 10 :=
  active_state_implies_saturated (List.replicate 11 true) (List.replicate 11 false)
    (DebounceState.Active, { counter := 10, max_counts := 10, state := true })
    (DebounceState.Active, { counter := 10, max_counts := 10, state := false })
    (by decide) rfl (by decide) rfl

/-- Claim C6: for either polarity, once the counter has reached the
threshold, an update observing the active raw level returns `Active`,
leaves the counter unchanged at the threshold, publishes the active value,
and doing it again returns `Active` with the state unchanged (idempotent). -/
theorem saturated_update_idempotent (p q : DebouncedInputPin)
    (hp : p.counter = p.max_counts) (hq : q.counter = q.max_counts) :
    (stepActiveHigh p true = (DebounceState.Active, { p with state := true }) ∧
      (stepActiveHigh p true).2.counter = p.counter ∧
      stepActiveHigh (stepActiveHigh p true).2 true =
        (DebounceState.Active, (stepActiveHigh p true).2)) ∧
    (stepActiveLow q false = (DebounceState.Active, { q with state := false }) ∧
      (stepActiveLow q false).2.counter = q.counter ∧
      stepActiveLow (stepActiveLow q false).2 false =
        (DebounceState.Active, (stepActiveLow q false).2)) := by
  have hcp : ¬ p.counter < p.max_counts := by omega
  have hcq : ¬ q.counter < q.max_counts := by omega
  refine ⟨⟨?_, ?_, ?_⟩, ⟨?_, ?_, ?_⟩⟩ <;>
    simp [stepActiveHigh, stepActiveLow, hcp, hcq]

/-- Witness for claim C6 at a saturated ActiveHigh pin and a saturated
ActiveLow pin with the default threshold. -/
theorem saturated_update_idempotent_witness :
    (stepActiveHigh { counter := 10, max_counts := 10, state := false } true =
        (DebounceState.Active, { counter := 10, max_counts := 10, state := true }) ∧
      (stepActiveHigh { counter := 10, max_counts := 10, state := false } true).2.counter = 10 ∧
      stepActiveHigh (stepActiveHigh { counter := 10, max_counts := 10, state := false } true).2
          true =
        (DebounceState.Active,
          (stepActiveHigh { counter := 10, max_counts := 10, state := false } true).2)) ∧
    (stepActiveLow { counter := 10, max_counts := 10, state := true } false =
        (DebounceState.Active, { counter := 10, max_counts := 10, state := false }) ∧
      (stepActiveLow { counter := 10, max_counts := 10, state := true } false).2.counter = 10 ∧
      stepActiveLow (stepActiveLow { counter := 10, max_counts := 10, state := true } false).2
          false =
        (DebounceState.Active,
          (stepActiveLow { counter := 10, max_counts := 10, state := true } false).2)) :=
  saturated_update_idempotent
    { counter := 10, max_counts := 10, state := false }
    { counter := 10, max_counts := 10, state := true } rfl rfl

/-- Claim C8: `set_poll_amounts` changes only the threshold field, with no
constraint against the current counter; if the new threshold is at most the
current counter (including threshold 0 on a fresh pin), the next update
observing the active level immediately returns `Active` without
incrementing the counter. -/
theorem set_poll_amounts_immediate_active (p : DebouncedInputPin) (m : Int)
    (h : m ≤ p.counter) :
    DebouncedInputPin.set_poll_amounts p m =
      { counter := p.counter, max_counts := m, state := p.state } ∧
    stepActiveHigh (DebouncedInputPin.set_poll_amounts p m) true =
      (DebounceState.Active, { counter := p.counter, max_counts := m, state := true }) ∧
    stepActiveLow (DebouncedInputPin.set_poll_amounts p m) false =
      (DebounceState.Active, { counter := p.counter, max_counts := m, state := false }) := by
  have hc : ¬ p.counter < m := by omega
  refine ⟨rfl, ?_, ?_⟩ <;>
    simp [stepActiveHigh, stepActiveLow, DebouncedInputPin.set_poll_amounts, hc]

/-- Witness for claim C8: lowering the threshold to 0 on a fresh ActiveHigh
pin makes the very next active tick report `Active`. -/
theorem set_poll_amounts_immediate_active_witness :
    DebouncedInputPin.set_poll_amounts
        { counter := 0, max_counts := 10, state := false } 0 =
      { counter := 0, max_counts := 0, state := false } ∧
    stepActiveHigh
        (DebouncedInputPin.set_poll_amounts
          { counter := 0, max_counts := 10, state := false } 0) true =
      (DebounceState.Active, { counter := 0, max_counts := 0, state := true }) ∧
    stepActiveLow
        (DebouncedInputPin.set_poll_amounts
          { counter := 0, max_counts := 10, state := false } 0) false =
      (DebounceState.Active, { counter := 0, max_counts := 0, state := false }) :=
  set_poll_amounts_immediate_active
    { counter := 0, max_counts := 10, state := false } 0 (by norm_num)

end DebouncedPin
